import Mathlib

/- Verification development for python/ppo/models.py: a shallow embedding of the
   PPO model-construction code (model selector, encoder shapes, the clipped
   surrogate objective with TensorFlow broadcast semantics, and the polynomial
   learning-rate decay), with theorems checking the specification claims.

   Exact arithmetic (ℚ, or ℝ for the Gaussian policy) stands in for float32;
   tensors are functions out of Fin-indexed shapes. -/

set_option maxHeartbeats 1000000

/-- Model of tf.clip_by_value: clips t into the interval [lo, hi]. -/
def clip_by_value {α : Type} [LinearOrder α] (t lo hi : α) : α :=
  min (max t lo) hi

/-- Model of tf.stop_gradient: the identity at the level of values
    (it only affects gradient flow, which this value-level embedding
    does not represent). -/
def stop_gradient {α : Type} (x : α) : α := x

/-- The training ops built by PPOModel.create_ppo_optimizer that the claims
    are about: the policy loss, the value loss and the combined loss. -/
structure PpoOps (α : Type) where
  policy_loss : α
  value_loss : α
  loss : α

/-- Model of PPOModel.create_ppo_optimizer (models.py lines 88-117) for the
    shapes at which the discrete model invokes it: probs and old_probs have
    shape [n] (probability of the taken action per batch element), value has
    shape [n, 1], entropy has shape [n], the advantage and discounted-return
    placeholders have shapes [n, 1] and [n].

    Broadcast semantics: r_theta = probs / old_probs has shape [n]; multiplying
    it with the advantage placeholder of shape [n, 1] follows numpy/TensorFlow
    broadcasting, [n] * [n, 1] -> [n, n], with entry (i, j) equal to
    r_theta j * advantage i.  tf.reduce_mean of an [n, n] tensor divides the
    total by n * n, and of an [n] tensor by n. -/
def create_ppo_optimizer_1d {α : Type} [LinearOrderedField α] {n : ℕ}
    (probs old_probs : Fin n → α) (value : Fin n → Fin 1 → α)
    (entropy : Fin n → α) (beta epsilon : α)
    (advantage returns_holder : Fin n → α) : PpoOps α :=
  let r_theta : Fin n → α := fun j => probs j / old_probs j
  let p_opt_a : Fin n → Fin n → α := fun i j => r_theta j * advantage i
  let p_opt_b : Fin n → Fin n → α := fun i j =>
    clip_by_value (r_theta j) (1 - epsilon) (1 + epsilon) * advantage i
  let policy_loss : α :=
    -((∑ i, ∑ j, min (p_opt_a i j) (p_opt_b i j)) / ((n : α) * (n : α)))
  let value_loss : α :=
    (∑ i, (returns_holder i - ∑ j, value i j) ^ 2) / (n : α)
  ⟨policy_loss, value_loss,
    policy_loss + value_loss - beta * ((∑ i, entropy i) / (n : α))⟩

/-- Model of PPOModel.create_ppo_optimizer for the shapes at which the
    continuous model invokes it: probs and old_probs have shape [n, a]
    (per-dimension Gaussian densities), value has shape [n, 1], entropy is a
    scalar.  Here [n, a] * [n, 1] broadcasts to [n, a]: entry (i, k) is
    r_theta i k * advantage i, and tf.reduce_mean of a scalar is the scalar
    itself. -/
def create_ppo_optimizer_2d {α : Type} [LinearOrderedField α] {n a : ℕ}
    (probs old_probs : Fin n → Fin a → α) (value : Fin n → Fin 1 → α)
    (entropy : α) (beta epsilon : α)
    (advantage returns_holder : Fin n → α) : PpoOps α :=
  let r_theta : Fin n → Fin a → α := fun i k => probs i k / old_probs i k
  let p_opt_a : Fin n → Fin a → α := fun i k => r_theta i k * advantage i
  let p_opt_b : Fin n → Fin a → α := fun i k =>
    clip_by_value (r_theta i k) (1 - epsilon) (1 + epsilon) * advantage i
  let policy_loss : α :=
    -((∑ i, ∑ k, min (p_opt_a i k) (p_opt_b i k)) / ((n : α) * (a : α)))
  let value_loss : α :=
    (∑ i, (returns_holder i - ∑ j, value i j) ^ 2) / (n : α)
  ⟨policy_loss, value_loss, policy_loss + value_loss - beta * entropy⟩

/-- Model of tensorflow.contrib.layers.one_hot_encoding restricted to a single
    index: the one-hot row vector of width a_size selecting position idx. -/
def one_hot_encoding {α : Type} [LinearOrderedField α] (a_size idx : ℕ) :
    Fin a_size → α :=
  fun k => if (k : ℕ) = idx then 1 else 0

/-- Model of the tail of DiscreteControlModel.__init__ (models.py lines
    203-210): one-hot masks from the taken-action indices reduce the current
    and old probability tensors of shape [n, a_size] to the probability mass
    of the taken action (shape [n]), and this pair is fed to
    create_ppo_optimizer. -/
def discreteControlObjective {α : Type} [LinearOrderedField α] {n a_size : ℕ}
    (probs old_probs : Fin n → Fin a_size → α) (value : Fin n → Fin 1 → α)
    (entropy : Fin n → α) (action_holder : Fin n → ℕ) (beta epsilon : α)
    (advantage returns_holder : Fin n → α) : PpoOps α :=
  let selected_actions : Fin n → Fin a_size → α :=
    fun i => one_hot_encoding a_size (action_holder i)
  let responsible_probs : Fin n → α :=
    fun i => ∑ k, probs i k * selected_actions i k
  let old_responsible_probs : Fin n → α :=
    fun i => ∑ k, old_probs i k * selected_actions i k
  create_ppo_optimizer_1d responsible_probs old_responsible_probs value
    entropy beta epsilon advantage returns_holder

/-- Model of tf.train.polynomial_decay with cycle=False (as called at
    models.py lines 113-115): the step is clipped to decay_steps, and the
    rate interpolates from lr down to end_learning_rate with the given
    power. -/
def polynomial_decay (lr : ℚ) (global_step decay_steps : ℕ)
    (end_learning_rate : ℚ) (power : ℕ) : ℚ :=
  let gs := min global_step decay_steps
  (lr - end_learning_rate) * (1 - (gs : ℚ) / (decay_steps : ℚ)) ^ power
    + end_learning_rate

/-- The learning rate built by create_ppo_optimizer: polynomial decay from lr
    to the floor 1e-10 over max_step steps with power 1.0, driven by the
    global_step counter. -/
def learning_rate_at (lr : ℚ) (global_step max_step : ℕ) : ℚ :=
  polynomial_decay lr global_step max_step (1 / 10 ^ 10) 1

/-- One entry of BrainParameters.camera_resolutions: a height/width pair. -/
structure CameraResolution where
  height : ℕ
  width : ℕ
deriving DecidableEq

/-- The fields of a Unity brain read by create_agent_model and the two model
    constructors (the EnvironmentSpec of the spec). -/
structure BrainParameters where
  action_space_type : String
  action_space_size : ℕ
  state_space_type : String
  state_space_size : ℕ
  number_observations : ℕ
  camera_resolutions : List CameraResolution
deriving DecidableEq

/-- Shape-level record of the graph built by PPOModel.create_visual_encoder:
    the input placeholder is [batch, o_size_h, o_size_w, 1] and the final
    dense projection (after the two convolutions and the flatten) has width
    h_size. -/
structure VisualEncoderConfig where
  o_size_h : ℕ
  o_size_w : ℕ
  h_size : ℕ
deriving DecidableEq

/-- Shape-level model of PPOModel.create_visual_encoder: records the spatial
    input dimensions and the width of the dense projection it was asked to
    produce. -/
def create_visual_encoder (o_size_h o_size_w h_size : ℕ) : VisualEncoderConfig :=
  ⟨o_size_h, o_size_w, h_size⟩

/-- Shape-level model of PPOModel.create_continuous_state_encoder: two dense
    layers of width h_size, so the latent width of the result is h_size. -/
def create_continuous_state_encoder (s_size h_size : ℕ) : ℕ := h_size

/-- Shape-level model of PPOModel.create_discrete_state_encoder: one-hot of
    width s_size followed by one dense layer of width h_size, so the latent
    width of the result is h_size. -/
def create_discrete_state_encoder (s_size h_size : ℕ) : ℕ := h_size

/-- Model of the encoder-construction prefix of DiscreteControlModel.__init__
    (models.py lines 170-180).  The Python code rebinds the local h_size to
    camera_resolutions[0]['height'] (and reads the height field again for
    w_size) before building the visual encoder, so every later use of h_size
    in the same constructor sees the camera height.  Returns
    (hidden_visual, hidden_state, local h_size after the observation branch);
    the two hidden components are latent widths when present.  An empty
    camera list with number_observations > 0 would raise IndexError in
    Python; here List.headD supplies a dummy, and the theorems about this
    function assume a non-empty list. -/
def discreteEncoderSetup (brain : BrainParameters) (h_size0 : ℕ) :
    Option VisualEncoderConfig × Option ℕ × ℕ :=
  let obs_branch : Option VisualEncoderConfig × ℕ :=
    if 0 < brain.number_observations then
      let h_size1 := (brain.camera_resolutions.headD ⟨0, 0⟩).height
      let w_size := (brain.camera_resolutions.headD ⟨0, 0⟩).height
      (some (create_visual_encoder h_size1 w_size h_size1), h_size1)
    else (none, h_size0)
  let h_size := obs_branch.2
  let hidden_state : Option ℕ :=
    if 0 < brain.state_space_size then
      some (if brain.state_space_type = "continuous"
            then create_continuous_state_encoder brain.state_space_size h_size
            else create_discrete_state_encoder brain.state_space_size h_size)
    else none
  (obs_branch.1, hidden_state, h_size)

/-- Shape-level record of a constructed DiscreteControlModel. -/
structure DiscreteControlModelS where
  hidden_visual : Option VisualEncoderConfig
  hidden_state : Option ℕ
  hidden : ℕ
  a_size : ℕ
deriving DecidableEq

/-- Shape-level record of a constructed ContinuousControlModel. -/
structure ContinuousControlModelS where
  s_size : ℕ
  a_size : ℕ
  h_size : ℕ
deriving DecidableEq

/-- The two Python exceptions that model construction can raise. -/
inductive PyError where
  | unityEnvironmentException : String → PyError
  | exception : String → PyError
deriving DecidableEq

/-- Model of ContinuousControlModel.__init__ at the shape level: it reads the
    state and action sizes from the brain and never fails. -/
def continuousControlModelInit (lr : ℚ) (brain : BrainParameters)
    (h_size : ℕ) (epsilon : ℚ) (max_step : ℕ) : ContinuousControlModelS :=
  ⟨brain.state_space_size, brain.action_space_size, h_size⟩

/-- Model of DiscreteControlModel.__init__ at the shape level: builds the
    encoders per discreteEncoderSetup, raises when neither a state nor a
    visual encoder was built, and otherwise concatenates the present latents
    (axis 1) into the hidden width feeding the policy and value heads. -/
def discreteControlModelInit (lr : ℚ) (brain : BrainParameters) (h_size : ℕ)
    (epsilon beta : ℚ) (max_step : ℕ) :
    Except PyError DiscreteControlModelS :=
  let setup := discreteEncoderSetup brain h_size
  match setup.1, setup.2.1 with
  | none, none =>
      Except.error (PyError.exception
        "No valid network configuration possible. There are no states or observations in this brain")
  | some v, none => Except.ok ⟨some v, none, v.h_size, brain.action_space_size⟩
  | none, some sw => Except.ok ⟨none, some sw, sw, brain.action_space_size⟩
  | some v, some sw =>
      Except.ok ⟨some v, some sw, v.h_size + sw, brain.action_space_size⟩

/-- The model value returned by create_agent_model: one of the two model
    classes. -/
inductive AgentModel where
  | continuousControl : ContinuousControlModelS → AgentModel
  | discreteControl : DiscreteControlModelS → AgentModel
deriving DecidableEq

/-- Model of create_agent_model (models.py lines 8-29).  Python raises
    UnityEnvironmentException for a continuous brain with camera
    observations, propagates the Exception raised by
    DiscreteControlModel.__init__, and for any other action_space_type falls
    off the end of the function, returning None. -/
def create_agent_model (brain : BrainParameters) (lr : ℚ) (h_size : ℕ)
    (epsilon beta : ℚ) (max_step : ℕ) :
    Except PyError (Option AgentModel) :=
  if brain.action_space_type = "continuous" then
    if brain.number_observations = 0 then
      Except.ok (some (AgentModel.continuousControl
        (continuousControlModelInit lr brain h_size epsilon max_step)))
    else
      Except.error (PyError.unityEnvironmentException
        "There is currently no PPO model which supports both a continuous action space and camera observations.")
  else if brain.action_space_type = "discrete" then
    (discreteControlModelInit lr brain h_size epsilon beta max_step).map
      (fun m => some (AgentModel.discreteControl m))
  else
    Except.ok none

/-- The learnable parameters of ContinuousControlModel (models.py lines
    120-160): the two dense towers (policy and value), the mu projection, the
    batch-independent log-variance vector, and the value projection.  The
    variance-scaling initializer only fixes the starting distribution of
    W_mu; the parameters here are arbitrary. -/
structure ContinuousParams (s h a : ℕ) where
  W_policy1 : Fin s → Fin h → ℝ
  W_policy2 : Fin h → Fin h → ℝ
  W_mu : Fin h → Fin a → ℝ
  log_sigma_sq : Fin a → ℝ
  W_value1 : Fin s → Fin h → ℝ
  W_value2 : Fin h → Fin h → ℝ
  W_value : Fin h → Fin 1 → ℝ

/-- Model of tf.layers.dense with use_bias=False and the given activation. -/
noncomputable def dense_no_bias {inW outW n : ℕ} (act : ℝ → ℝ)
    (W : Fin inW → Fin outW → ℝ) (x : Fin n → Fin inW → ℝ) :
    Fin n → Fin outW → ℝ :=
  fun b j => act (∑ k, x b k * W k j)

/-- The tensors of ContinuousControlModel that the claims are about. -/
structure ContinuousModelOut (n a : ℕ) where
  mu : Fin n → Fin a → ℝ
  sigma_sq : Fin a → ℝ
  output : Fin n → Fin a → ℝ
  probs : Fin n → Fin a → ℝ
  entropy : ℝ
  value : Fin n → Fin 1 → ℝ
  ppo : PpoOps ℝ

/-- Value-level model of ContinuousControlModel.__init__ (models.py lines
    120-160): two tanh towers from the state, mu as a linear head,
    sigma_sq = exp(log_sigma_sq), the reparameterized action
    mu + sqrt(sigma_sq) * epsilon exposed as the action output, the
    per-dimension Gaussian density at the (gradient-detached) sampled action,
    the summed diagonal-Gaussian entropy, the linear value head, and the call
    to the shared create_ppo_optimizer with beta = 0.0. -/
noncomputable def continuousForward {s h a n : ℕ} (p : ContinuousParams s h a)
    (state : Fin n → Fin s → ℝ) (eps : Fin n → Fin a → ℝ)
    (old_probs : Fin n → Fin a → ℝ) (advantage returns_holder : Fin n → ℝ)
    (epsilon : ℝ) : ContinuousModelOut n a :=
  let hidden_policy := dense_no_bias Real.tanh p.W_policy1 state
  let hidden_value := dense_no_bias Real.tanh p.W_value1 state
  let hidden_policy_2 := dense_no_bias Real.tanh p.W_policy2 hidden_policy
  let hidden_value_2 := dense_no_bias Real.tanh p.W_value2 hidden_value
  let mu := dense_no_bias id p.W_mu hidden_policy_2
  let sigma_sq : Fin a → ℝ := fun k => Real.exp (p.log_sigma_sq k)
  let output : Fin n → Fin a → ℝ :=
    fun i k => mu i k + Real.sqrt (sigma_sq k) * eps i k
  let density_a : Fin n → Fin a → ℝ := fun i k =>
    Real.exp (-1 * (stop_gradient (output i k) - mu i k) ^ 2
      / (2 * sigma_sq k))
  let density_b : Fin a → ℝ := fun k =>
    1 / Real.sqrt (2 * sigma_sq k * Real.pi)
  let probs : Fin n → Fin a → ℝ := fun i k => density_a i k * density_b k
  let entropy : ℝ :=
    ∑ k, 0.5 * Real.log (2 * Real.pi * Real.exp 1 * sigma_sq k)
  let value := dense_no_bias id p.W_value hidden_value_2
  let ppo := create_ppo_optimizer_2d probs old_probs value entropy 0 epsilon
    advantage returns_holder
  ⟨mu, sigma_sq, output, probs, entropy, value, ppo⟩

/-- Concrete brains used by the witness theorems below. -/
def contBrainNoObs : BrainParameters :=
  ⟨"continuous", 2, "continuous", 8, 0, []⟩

def contBrainObs : BrainParameters :=
  ⟨"continuous", 2, "continuous", 8, 1, [⟨84, 84⟩]⟩

def discBrainEmpty : BrainParameters :=
  ⟨"discrete", 3, "discrete", 0, 0, []⟩

def discBrainCam : BrainParameters :=
  ⟨"discrete", 3, "continuous", 5, 1, [⟨84, 64⟩]⟩

def otherBrain : BrainParameters :=
  ⟨"multi", 3, "discrete", 4, 0, []⟩

/-- Claim C1: the PPO objective computes the ratio r = probs / oldProbs
    elementwise and the policy loss as
    -mean(min(r * advantage, clip(r, 1-epsilon, 1+epsilon) * advantage));
    for advantage > 0 and r > 1 + epsilon the term selected by the min is the
    clipped one, (1+epsilon)*advantage, and not r*advantage (which is
    strictly larger).  The last conjunct checks the composition through
    create_ppo_optimizer on a one-element batch: the policy loss there is
    exactly minus the clipped surrogate term. -/
theorem ppo_clipped_surrogate_selection (p op advS epsilon : ℚ)
    (heps : 0 ≤ epsilon) (hadv : 0 < advS) (hr : 1 + epsilon < p / op) :
    min (p / op * advS)
        (clip_by_value (p / op) (1 - epsilon) (1 + epsilon) * advS)
      = (1 + epsilon) * advS
    ∧ (1 + epsilon) * advS < p / op * advS
    ∧ (create_ppo_optimizer_1d (fun _ : Fin 1 => p) (fun _ : Fin 1 => op)
        (fun _ _ => (0 : ℚ)) (fun _ => 0) 0 epsilon (fun _ => advS)
        (fun _ => 0)).policy_loss = -((1 + epsilon) * advS) := by
  have hclip : clip_by_value (p / op) (1 - epsilon) (1 + epsilon)
      = 1 + epsilon := by
    unfold clip_by_value
    rw [max_eq_left, min_eq_right (le_of_lt hr)]
    linarith
  have hlt : (1 + epsilon) * advS < p / op * advS :=
    mul_lt_mul_of_pos_right hr hadv
  have hmin : min (p / op * advS)
      (clip_by_value (p / op) (1 - epsilon) (1 + epsilon) * advS)
      = (1 + epsilon) * advS := by
    rw [hclip, min_eq_right (le_of_lt hlt)]
  refine ⟨hmin, hlt, ?_⟩
  simp only [create_ppo_optimizer_1d, Fin.sum_univ_one, hmin]
  norm_num

/-- Witness for ppo_clipped_surrogate_selection at p = 3, op = 1, advS = 1,
    epsilon = 1/5. -/
theorem ppo_clipped_surrogate_selection_witness :
    (0 ≤ (1 : ℚ) / 5 ∧ 0 < (1 : ℚ) ∧ 1 + (1 : ℚ) / 5 < 3 / 1)
    ∧ min ((3 : ℚ) / 1 * 1)
        (clip_by_value ((3 : ℚ) / 1) (1 - 1 / 5) (1 + 1 / 5) * 1)
      = (1 + 1 / 5) * 1
    ∧ (1 + (1 : ℚ) / 5) * 1 < 3 / 1 * 1
    ∧ (create_ppo_optimizer_1d (fun _ : Fin 1 => (3 : ℚ))
        (fun _ : Fin 1 => (1 : ℚ)) (fun _ _ => (0 : ℚ)) (fun _ => 0) 0
        (1 / 5) (fun _ => 1) (fun _ => 0)).policy_loss
      = -((1 + 1 / 5) * 1) :=
  ⟨⟨by norm_num, by norm_num, by norm_num⟩,
    (ppo_clipped_surrogate_selection 3 1 1 (1 / 5) (by norm_num) (by norm_num)
      (by norm_num)).1,
    (ppo_clipped_surrogate_selection 3 1 1 (1 / 5) (by norm_num) (by norm_num)
      (by norm_num)).2.1,
    (ppo_clipped_surrogate_selection 3 1 1 (1 / 5) (by norm_num) (by norm_num)
      (by norm_num)).2.2⟩

/-- Claim C2: in the discrete-control model the probability of the taken
    action has shape [batch] while the advantage placeholder has shape
    [batch, 1], so r * advantage broadcasts to a [batch, batch] matrix and
    the policy loss averages over all ordered pairs: it equals
    -(1/n^2) * sum over (i, j) of
    min(r_i * advantage_j, clip(r_i, 1-epsilon, 1+epsilon) * advantage_j),
    where r_i is the ratio of the taken-action probabilities of batch
    element i — every ratio is paired with every advantage, not only with
    its own. -/
theorem discrete_policy_loss_pairs_all_ratios_with_all_advantages
    {n a_size : ℕ} (probs old_probs : Fin n → Fin a_size → ℚ)
    (value : Fin n → Fin 1 → ℚ) (entropy : Fin n → ℚ)
    (action_holder : Fin n → ℕ) (beta epsilon : ℚ)
    (advantage returns_holder : Fin n → ℚ) :
    (discreteControlObjective probs old_probs value entropy action_holder
        beta epsilon advantage returns_holder).policy_loss
      = -(1 / (n : ℚ) ^ 2 * ∑ i, ∑ j,
          min ((∑ k, probs i k * one_hot_encoding a_size (action_holder i) k)
                / (∑ k, old_probs i k
                    * one_hot_encoding a_size (action_holder i) k)
              * advantage j)
            (clip_by_value
                ((∑ k, probs i k * one_hot_encoding a_size (action_holder i) k)
                  / (∑ k, old_probs i k
                      * one_hot_encoding a_size (action_holder i) k))
                (1 - epsilon) (1 + epsilon) * advantage j)) := by
  simp only [discreteControlObjective, create_ppo_optimizer_1d]
  rw [Finset.sum_comm]
  rw [pow_two]
  ring

/-- Claim C3: in the discrete-control constructor with
    number_observations > 0, the camera height field is read for both
    spatial dimensions of the visual encoder, the local hidden-size variable
    is rebound to the camera height before building it, so the visual
    encoder dense projection has width camera_resolutions[0].height — and
    any state encoder built afterwards in the same constructor also has
    width camera_resolutions[0].height instead of the configured h_size0.
    The conclusion never mentions cam.width or h_size0, so the camera width
    field and the configured hidden size are never read on this path. -/
theorem discrete_visual_encoder_reads_height_twice
    (brain : BrainParameters) (h_size0 : ℕ) (cam : CameraResolution)
    (rest : List CameraResolution)
    (hobs : 0 < brain.number_observations)
    (hcam : brain.camera_resolutions = cam :: rest) :
    (discreteEncoderSetup brain h_size0).1
        = some (create_visual_encoder cam.height cam.height cam.height)
    ∧ (discreteEncoderSetup brain h_size0).2.2 = cam.height
    ∧ (0 < brain.state_space_size →
        (discreteEncoderSetup brain h_size0).2.1 = some cam.height) := by
  refine ⟨?_, ?_, fun hs => ?_⟩
  · simp [discreteEncoderSetup, hobs, hcam]
  · simp [discreteEncoderSetup, hobs, hcam]
  · simp [discreteEncoderSetup, hobs, hcam, hs,
      create_continuous_state_encoder, create_discrete_state_encoder,
      ite_self]

/-- Witness for discrete_visual_encoder_reads_height_twice on a brain with
    one 84x64 camera and a 5-dimensional continuous state space, configured
    hidden size 128: every encoder width comes out as 84. -/
theorem discrete_visual_encoder_reads_height_twice_witness :
    (0 < discBrainCam.number_observations
      ∧ discBrainCam.camera_resolutions
          = (⟨84, 64⟩ : CameraResolution) :: []
      ∧ 0 < discBrainCam.state_space_size)
    ∧ (discreteEncoderSetup discBrainCam 128).1
        = some (create_visual_encoder 84 84 84)
    ∧ (discreteEncoderSetup discBrainCam 128).2.2 = 84
    ∧ (discreteEncoderSetup discBrainCam 128).2.1 = some 84 :=
  ⟨⟨by decide, rfl, by decide⟩,
    (discrete_visual_encoder_reads_height_twice discBrainCam 128 ⟨84, 64⟩ []
      (by decide) rfl).1,
    (discrete_visual_encoder_reads_height_twice discBrainCam 128 ⟨84, 64⟩ []
      (by decide) rfl).2.1,
    (discrete_visual_encoder_reads_height_twice discBrainCam 128 ⟨84, 64⟩ []
      (by decide) rfl).2.2 (by decide)⟩

/-- Claim C4: for both model variants the total loss built by the shared
    create_ppo_optimizer equals policy_loss + value_loss - beta * mean(entropy),
    with beta the entropy weight the model supplies to the objective.  The
    discrete model supplies its configured beta (entropy has shape [batch],
    so its mean is the sum divided by n); the continuous model supplies
    beta = 0.0 (its entropy is a scalar, whose mean is itself). -/
theorem total_loss_is_policy_plus_value_minus_beta_entropy
    {n a_size : ℕ} (probs old_probs : Fin n → Fin a_size → ℚ)
    (value : Fin n → Fin 1 → ℚ) (entropy : Fin n → ℚ)
    (action_holder : Fin n → ℕ) (beta epsilon : ℚ)
    (advantage returns_holder : Fin n → ℚ)
    {s h a m : ℕ} (p : ContinuousParams s h a)
    (state : Fin m → Fin s → ℝ) (eps : Fin m → Fin a → ℝ)
    (old_probs2 : Fin m → Fin a → ℝ) (advantage2 returns2 : Fin m → ℝ)
    (epsilon2 : ℝ) :
    (discreteControlObjective probs old_probs value entropy action_holder
        beta epsilon advantage returns_holder).loss
      = (discreteControlObjective probs old_probs value entropy action_holder
          beta epsilon advantage returns_holder).policy_loss
        + (discreteControlObjective probs old_probs value entropy
            action_holder beta epsilon advantage returns_holder).value_loss
        - beta * ((∑ i, entropy i) / (n : ℚ))
    ∧ (continuousForward p state eps old_probs2 advantage2 returns2
        epsilon2).ppo.loss
      = (continuousForward p state eps old_probs2 advantage2 returns2
          epsilon2).ppo.policy_loss
        + (continuousForward p state eps old_probs2 advantage2 returns2
            epsilon2).ppo.value_loss
        - 0 * (continuousForward p state eps old_probs2 advantage2 returns2
            epsilon2).entropy :=
  ⟨rfl, rfl⟩

/-- Claim C5: the learning rate decays linearly (power 1.0) from the base lr
    at step 0 down to the floor 1e-10 at step = max_step, and is monotonically
    non-increasing in the step counter (for a base lr at or above the floor
    and a positive max_step). -/
theorem learning_rate_linear_decay (lr : ℚ) (max_step s t : ℕ)
    (hms : 0 < max_step) (hlr : 1 / 10 ^ 10 ≤ lr) (hst : s ≤ t) :
    learning_rate_at lr 0 max_step = lr
    ∧ learning_rate_at lr max_step max_step = 1 / 10 ^ 10
    ∧ learning_rate_at lr t max_step ≤ learning_rate_at lr s max_step := by
  have hmq : (0 : ℚ) < (max_step : ℚ) := by exact_mod_cast hms
  refine ⟨?_, ?_, ?_⟩
  · simp [learning_rate_at, polynomial_decay, Nat.zero_min]
  · simp only [learning_rate_at, polynomial_decay, min_self, pow_one]
    rw [div_self (ne_of_gt hmq)]
    ring
  · have hA : (0 : ℚ) ≤ lr - 1 / 10 ^ 10 := sub_nonneg.mpr hlr
    have hmin : min s max_step ≤ min t max_step := min_le_min hst le_rfl
    have hdiv : ((min s max_step : ℕ) : ℚ) / (max_step : ℚ)
        ≤ ((min t max_step : ℕ) : ℚ) / (max_step : ℚ) := by
      gcongr
    have hsub : 1 - ((min t max_step : ℕ) : ℚ) / (max_step : ℚ)
        ≤ 1 - ((min s max_step : ℕ) : ℚ) / (max_step : ℚ) :=
      sub_le_sub_left hdiv 1
    have hmul := mul_le_mul_of_nonneg_left hsub hA
    simpa [learning_rate_at, polynomial_decay, pow_one] using
      add_le_add_right hmul (1 / 10 ^ 10)

/-- Witness for learning_rate_linear_decay with lr = 1/10000 (the 1e-4
    default), max_step = 100, s = 3, t = 7. -/
theorem learning_rate_linear_decay_witness :
    (0 < 100 ∧ (1 : ℚ) / 10 ^ 10 ≤ 1 / 10000 ∧ 3 ≤ 7)
    ∧ learning_rate_at (1 / 10000) 0 100 = 1 / 10000
    ∧ learning_rate_at (1 / 10000) 100 100 = 1 / 10 ^ 10
    ∧ learning_rate_at (1 / 10000) 7 100
        ≤ learning_rate_at (1 / 10000) 3 100 :=
  ⟨⟨by decide, by norm_num, by decide⟩,
    (learning_rate_linear_decay (1 / 10000) 100 3 7 (by decide) (by norm_num)
      (by decide)).1,
    (learning_rate_linear_decay (1 / 10000) 100 3 7 (by decide) (by norm_num)
      (by decide)).2.1,
    (learning_rate_linear_decay (1 / 10000) 100 3 7 (by decide) (by norm_num)
      (by decide)).2.2⟩

/-- Claim C6: for a continuous-action brain, create_agent_model raises
    UnityEnvironmentException when number_observations > 0 (constructing no
    model), and constructs the continuous-control model when
    number_observations = 0. -/
theorem create_agent_model_continuous_dispatch (brain : BrainParameters)
    (lr : ℚ) (h_size : ℕ) (epsilon beta : ℚ) (max_step : ℕ)
    (hcont : brain.action_space_type = "continuous") :
    (0 < brain.number_observations →
      create_agent_model brain lr h_size epsilon beta max_step
        = Except.error (PyError.unityEnvironmentException
            "There is currently no PPO model which supports both a continuous action space and camera observations."))
    ∧ (brain.number_observations = 0 →
        create_agent_model brain lr h_size epsilon beta max_step
          = Except.ok (some (AgentModel.continuousControl
              (continuousControlModelInit lr brain h_size epsilon
                max_step)))) := by
  constructor
  · intro hobs
    simp [create_agent_model, hcont, Nat.pos_iff_ne_zero.mp hobs]
  · intro hobs
    simp [create_agent_model, hcont, hobs]

/-- Witness for create_agent_model_continuous_dispatch on two concrete
    continuous brains, one with a camera (construction fails) and one
    without (the continuous model is built). -/
theorem create_agent_model_continuous_dispatch_witness :
    (contBrainObs.action_space_type = "continuous"
      ∧ 0 < contBrainObs.number_observations
      ∧ contBrainNoObs.action_space_type = "continuous"
      ∧ contBrainNoObs.number_observations = 0)
    ∧ create_agent_model contBrainObs (1 / 10000) 128 (1 / 5) (1 / 1000) 100
        = Except.error (PyError.unityEnvironmentException
            "There is currently no PPO model which supports both a continuous action space and camera observations.")
    ∧ create_agent_model contBrainNoObs (1 / 10000) 128 (1 / 5) (1 / 1000)
          100
        = Except.ok (some (AgentModel.continuousControl
            (continuousControlModelInit (1 / 10000) contBrainNoObs 128
              (1 / 5) 100))) :=
  ⟨⟨rfl, by decide, rfl, rfl⟩,
    (create_agent_model_continuous_dispatch contBrainObs (1 / 10000) 128
      (1 / 5) (1 / 1000) 100 rfl).1 (by decide),
    (create_agent_model_continuous_dispatch contBrainNoObs (1 / 10000) 128
      (1 / 5) (1 / 1000) 100 rfl).2 rfl⟩

/-- Counterexample to claim C7: on a brain whose action_space_type is
    "multi" (neither "continuous" nor "discrete"), create_agent_model does
    not fail with an error — the Python function falls off the end and
    returns None, modelled as Except.ok none. -/
theorem create_agent_model_unrecognized_counterexample :
    create_agent_model otherBrain (1 / 10000) 128 (1 / 5) (1 / 1000) 100
      = Except.ok none := by
  simp [create_agent_model, otherBrain]

/-- Claim C7 as amended: for every brain whose action_space_type is neither
    "continuous" nor "discrete", create_agent_model raises no error and
    returns no model (Python's implicit None). -/
theorem create_agent_model_unrecognized_returns_none
    (brain : BrainParameters) (lr : ℚ) (h_size : ℕ) (epsilon beta : ℚ)
    (max_step : ℕ) (h1 : brain.action_space_type ≠ "continuous")
    (h2 : brain.action_space_type ≠ "discrete") :
    create_agent_model brain lr h_size epsilon beta max_step
      = Except.ok none := by
  simp [create_agent_model, h1, h2]

/-- Witness for create_agent_model_unrecognized_returns_none on the "multi"
    brain. -/
theorem create_agent_model_unrecognized_returns_none_witness :
    (otherBrain.action_space_type ≠ "continuous"
      ∧ otherBrain.action_space_type ≠ "discrete")
    ∧ create_agent_model otherBrain (1 / 2) 64 (1 / 5) (1 / 1000) 10
        = Except.ok none :=
  ⟨⟨by decide, by decide⟩,
    create_agent_model_unrecognized_returns_none otherBrain (1 / 2) 64
      (1 / 5) (1 / 1000) 10 (by decide) (by decide)⟩

/-- Claim C8: for a discrete-action brain with no state space and no
    observations, create_agent_model (through DiscreteControlModel.__init__)
    raises the no-valid-network-configuration exception instead of producing
    a model. -/
theorem create_agent_model_discrete_no_inputs_fails (brain : BrainParameters)
    (lr : ℚ) (h_size : ℕ) (epsilon beta : ℚ) (max_step : ℕ)
    (hdisc : brain.action_space_type = "discrete")
    (hstate : brain.state_space_size = 0)
    (hobs : brain.number_observations = 0) :
    create_agent_model brain lr h_size epsilon beta max_step
      = Except.error (PyError.exception
          "No valid network configuration possible. There are no states or observations in this brain") := by
  have hne : brain.action_space_type ≠ "continuous" := by
    rw [hdisc]; decide
  simp [create_agent_model, hne, hdisc, discreteControlModelInit,
    discreteEncoderSetup, hstate, hobs, Except.map]

/-- Witness for create_agent_model_discrete_no_inputs_fails on a discrete
    brain with state_space_size = 0 and number_observations = 0. -/
theorem create_agent_model_discrete_no_inputs_fails_witness :
    (discBrainEmpty.action_space_type = "discrete"
      ∧ discBrainEmpty.state_space_size = 0
      ∧ discBrainEmpty.number_observations = 0)
    ∧ create_agent_model discBrainEmpty (1 / 10000) 128 (1 / 5) (1 / 1000)
          100
        = Except.error (PyError.exception
            "No valid network configuration possible. There are no states or observations in this brain") :=
  ⟨⟨rfl, rfl, rfl⟩,
    create_agent_model_discrete_no_inputs_fails discBrainEmpty (1 / 10000)
      128 (1 / 5) (1 / 1000) 100 rfl rfl rfl⟩

/-- Claim C9: the continuous policy entropy equals
    0.5 * sum over action dimensions of log(2 * pi * e * sigma_sq), and it
    depends only on sigma_sq: replacing the mu-producing weights (both
    towers and W_mu), the state input, the noise, and every objective
    placeholder — everything except log_sigma_sq — leaves the computed
    entropy unchanged. -/
theorem continuous_entropy_formula_and_mu_invariance {s h a n : ℕ}
    (W1 W1b : Fin s → Fin h → ℝ) (W2 W2b : Fin h → Fin h → ℝ)
    (Wmu Wmub : Fin h → Fin a → ℝ) (ls : Fin a → ℝ)
    (Wv1 Wv1b : Fin s → Fin h → ℝ) (Wv2 Wv2b : Fin h → Fin h → ℝ)
    (Wv Wvb : Fin h → Fin 1 → ℝ) (state state2 : Fin n → Fin s → ℝ)
    (eps eps2 old_probs old2 : Fin n → Fin a → ℝ)
    (advantage returns_holder adv2 ret2 : Fin n → ℝ) (epsilon eps3 : ℝ) :
    (continuousForward ⟨W1, W2, Wmu, ls, Wv1, Wv2, Wv⟩ state eps old_probs
        advantage returns_holder epsilon).entropy
      = 0.5 * ∑ k, Real.log (2 * Real.pi * Real.exp 1
          * (continuousForward ⟨W1, W2, Wmu, ls, Wv1, Wv2, Wv⟩ state eps
              old_probs advantage returns_holder epsilon).sigma_sq k)
    ∧ (continuousForward ⟨W1, W2, Wmu, ls, Wv1, Wv2, Wv⟩ state eps old_probs
        advantage returns_holder epsilon).entropy
      = (continuousForward ⟨W1b, W2b, Wmub, ls, Wv1b, Wv2b, Wvb⟩ state2 eps2
          old2 adv2 ret2 eps3).entropy := by
  constructor
  · simp only [continuousForward]
    rw [Finset.mul_sum]
  · rfl

/-- Claim C10: the continuous model's action output (shape
    [batch, action_space_size] by the type of the output field) is
    mu + sqrt(sigma_sq) * epsilon for the caller-supplied noise tensor, and
    the per-dimension probability fed to the PPO objective is the Gaussian
    density exp(-(action - mu)^2 / (2 sigma_sq)) / sqrt(2 pi sigma_sq)
    evaluated at the sampled action (which enters through stop_gradient,
    i.e. as a gradient-detached constant), not reduced across dimensions. -/
theorem continuous_action_output_and_density {s h a n : ℕ}
    (p : ContinuousParams s h a) (state : Fin n → Fin s → ℝ)
    (eps : Fin n → Fin a → ℝ) (old_probs : Fin n → Fin a → ℝ)
    (advantage returns_holder : Fin n → ℝ) (epsilon : ℝ) (i : Fin n)
    (k : Fin a) :
    (continuousForward p state eps old_probs advantage returns_holder
        epsilon).output i k
      = (continuousForward p state eps old_probs advantage returns_holder
          epsilon).mu i k
        + Real.sqrt ((continuousForward p state eps old_probs advantage
            returns_holder epsilon).sigma_sq k) * eps i k
    ∧ (continuousForward p state eps old_probs advantage returns_holder
        epsilon).probs i k
      = Real.exp (-((continuousForward p state eps old_probs advantage
            returns_holder epsilon).output i k
          - (continuousForward p state eps old_probs advantage returns_holder
              epsilon).mu i k) ^ 2
          / (2 * (continuousForward p state eps old_probs advantage
              returns_holder epsilon).sigma_sq k))
        / Real.sqrt (2 * Real.pi * (continuousForward p state eps old_probs
            advantage returns_holder epsilon).sigma_sq k) := by
  constructor
  · rfl
  · simp only [continuousForward, stop_gradient, neg_one_mul, mul_one_div]
    congr 2
    ring
